import Mathlib

/-!
Shallow embedding of the LocalPulse API service layer
(`src/rag.py` — `ClaudeService` — and `src/api.py` — the `/api/financial`
handler).  Python strings are modelled as Lean `String`s, SQL `REAL`s as
`ℚ`, SQL `COUNT(*)` results as `ℕ`, the DuckDB database as an optional
list of `poi_density` rows (`none` models a raised database exception,
matching the single `except` path of each query method), and the external
LLM call as an `Except String String` oracle (error message or generated
text).  Python dicts used as association tables are modelled as ordered
association lists, preserving insertion order (Python dict iteration
order).
-/

namespace LocalPulse

/-- `str.lower()` restricted to the character-wise ASCII case mapping,
as a list of characters. -/
def pyLower (s : String) : List Char := s.data.map Char.toLower

/-- `str.upper()` (character-wise ASCII case mapping). -/
def pyUpper (s : String) : String := ⟨s.data.map Char.toUpper⟩

/-- Helper for `pyTitle`: the boolean argument records whether the
previous character was alphabetic. -/
def pyTitleAux : Bool → List Char → List Char
  | _, [] => []
  | prevAlpha, c :: rest =>
      (if c.isAlpha then (if prevAlpha then c.toLower else c.toUpper) else c)
        :: pyTitleAux c.isAlpha rest

/-- Python `str.title()`: the first letter of every alphabetic run is
upper-cased, the following letters lower-cased. -/
def pyTitle (s : String) : String := ⟨pyTitleAux false s.data⟩

/-- Contiguous-occurrence test on character lists: `needle` occurs as a
prefix of some suffix of the haystack. -/
def occursIn (needle : List Char) : List Char → Bool
  | [] => needle.isEmpty
  | c :: rest => needle.isPrefixOf (c :: rest) || occursIn needle rest

/-- Python's `needle in haystack` substring test, on the lower-cased
character list of the query. -/
def containsSub (hay : List Char) (needle : String) : Bool :=
  occursIn needle.data hay

/-- Lookup in an association list modelling a Python dict
(`d.get(k)` / `k in d`). -/
def lookupStr {α : Type} (k : String) (l : List (String × α)) : Option α :=
  (l.find? (fun p => p.1 == k)).map (·.2)

/-- `ClaudeService.INTENT_KEYWORDS` (rag.py lines 28–35), in insertion
order. -/
def INTENT_KEYWORDS : List (String × List String) :=
  [ ("greeting", ["halo", "hai", "hello", "apa kabar", "selamat"]),
    ("whitespots", ["belum terjangkau", "white-spot", "white spot", "lokasi terbaik", "ekspansi"]),
    ("risk_assessment", ["cabang berisiko", "pengawasan", "berisiko"]),
    ("gdp_national", ["kondisi nasional", "ekonomi nasional", "gdp", "nasional"]),
    ("business_analysis", ["coffee shop", "kedai kopi", "lokasi strategis", "usaha"]),
    ("bank_distribution", ["sebaran bank", "lokasi bank", "cabang bank"]) ]

/-- `ClaudeService.BANK_ENTITIES` (rag.py line 38). -/
def BANK_ENTITIES : List String :=
  ["bni", "bca", "bri", "mandiri", "bsi", "btn", "cimb", "danamon"]

/-- The `for intent_type, keywords in self.INTENT_KEYWORDS.items()` loop
of `extract_intent_and_entities` (rag.py lines 62–66): the first intent
one of whose keywords occurs in the lower-cased query wins; the default
is `"general_info"`. -/
def firstIntent (ql : List Char) : List (String × List String) → String
  | [] => "general_info"
  | (intentType, keywords) :: rest =>
      if keywords.any (fun w => containsSub ql w) then intentType
      else firstIntent ql rest

/-- `ClaudeService.extract_intent_and_entities` (rag.py lines 57–80):
returns `(intent, entities, location)`. -/
def extract_intent_and_entities (query : String) : String × List String × String :=
  let queryLower := pyLower query
  let intent := firstIntent queryLower INTENT_KEYWORDS
  let entities :=
    (if containsSub queryLower "bali" then ["Bali"] else [])
      ++ (BANK_ENTITIES.filter (fun b => containsSub queryLower b)).map pyUpper
  let location :=
    if containsSub queryLower "bali" then "Bali"
    else if intent = "gdp_national" then "Indonesia" else "Bali"
  (intent, entities, location)

/-- The `CASE` expression of `get_district_analysis` (rag.py lines
126–132) on a non-NULL average intensity: SQL `CASE` tries the `WHEN`
branches in order. -/
def classifyDistrict (avg : ℚ) (totalFinancial : ℕ) : String :=
  if avg > 0.7 ∧ totalFinancial < 2 then "HIGH_PRIORITY_WHITESPACE"
  else if avg > 0.5 ∧ totalFinancial < 3 then "MEDIUM_PRIORITY_WHITESPACE"
  else if avg < 0.3 ∧ totalFinancial > 2 then "POTENTIAL_RISK_OVERSUPPLY"
  else if avg < 0.2 ∧ totalFinancial > 0 then "HIGH_RISK_LOW_DEMAND"
  else "BALANCED"

/-- The same `CASE` expression when the joined average may be SQL NULL
(district with no non-financial POI rows): every comparison with NULL is
UNKNOWN, so all `WHEN` branches fail and the `ELSE` gives BALANCED. -/
def sqlClassify (avg : Option ℚ) (totalFinancial : ℕ) : String :=
  match avg with
  | none => "BALANCED"
  | some a => classifyDistrict a totalFinancial

/-- The Bali entry of `ClaudeService.MAP_CENTERS` (rag.py line 42). -/
def baliCenter : ℚ × ℚ := (-8.6705, 115.2126)

/-- The Indonesia entry of `ClaudeService.MAP_CENTERS` (rag.py line 43). -/
def indonesiaCenter : ℚ × ℚ := (-2.5, 118)

/-- `ClaudeService.MAP_CENTERS` (rag.py lines 41–44). -/
def MAP_CENTERS : List (String × (ℚ × ℚ)) :=
  [("Bali", baliCenter), ("Indonesia", indonesiaCenter)]

/-- The `MapDirective` dataclass (rag.py lines 9–16).  Filter values in
`generate_map_directive` are always booleans, so `filters` is an
association list of flags; `highlights` is never set by
`generate_map_directive` and defaults to `None`. -/
structure MapDirective where
  mode : String
  filters : List (String × Bool)
  center : Option (ℚ × ℚ) := none
  zoom : Option ℤ := none
  highlights : Option (List String) := none
deriving DecidableEq, Repr

/-- `ClaudeService.generate_map_directive` (rag.py lines 223–268):
`center` is the location looked up in `MAP_CENTERS` with the Bali entry
as default, `zoom` is 10 for Bali and 5 otherwise, and the directive
comes from the intent-keyed `directive_config` table, defaulting to its
`gdp_national` entry (whose center is always the Indonesia constant). -/
def generate_map_directive (intent location : String) : MapDirective :=
  let center := (lookupStr location MAP_CENTERS).getD baliCenter
  let zoom : ℤ := if location = "Bali" then 10 else 5
  let directiveConfig : List (String × MapDirective) :=
    [ ("gdp_national",
        { mode := "gdp", filters := [], center := some indonesiaCenter, zoom := some 5 }),
      ("whitespots",
        { mode := "whitespots",
          filters := [("show_heatmap", true), ("show_financial", true)],
          center := some center, zoom := some zoom }),
      ("risk_assessment",
        { mode := "risk",
          filters := [("show_heatmap", true), ("show_financial", true),
                      ("highlight_risk", true)],
          center := some center, zoom := some zoom }),
      ("bank_distribution",
        { mode := "financial",
          filters := [("show_financial", true), ("group_by_category", true)],
          center := some center, zoom := some zoom }),
      ("business_analysis",
        { mode := "business_analysis",
          filters := [("show_heatmap", true), ("show_poi_density", true),
                      ("show_financial", true), ("show_recommended_areas", true)],
          center := some center, zoom := some 11 }) ]
  (lookupStr intent directiveConfig).getD
    { mode := "gdp", filters := [], center := some indonesiaCenter, zoom := some 5 }

/-- One row of the `poi_density` table (the columns the embedded queries
touch; `intensity`, `latitude`, `longitude` and `rating` are SQL REALs,
modelled as rationals). -/
structure Poi where
  id : ℕ
  name : String
  category : String
  province : String
  district : String
  intensity : ℚ
  latitude : ℚ
  longitude : ℚ
  rating : ℚ
  rating_count : ℕ
  gmaps_link : String
  bank_category : String
  bank_colorcode : String
deriving DecidableEq, Repr

/-- The DuckDB database as the service sees it: `none` models a raised
exception (connection or query failure), `some rows` the contents of
`poi_density`. -/
abbrev Db := Option (List Poi)

/-- The result of `get_basic_stats` (rag.py lines 92–105): the three
COUNT(*) aggregates. -/
structure Stats where
  total_banks : ℕ
  total_atms : ℕ
  total_poi : ℕ
deriving DecidableEq, Repr

/-- `self._db_cache`, keyed by the `"basic_stats_{location}"` string.
Python dict assignment is modelled by consing (lookup finds the newest
binding). -/
abbrev StatsCache := List (String × Stats)

/-- The three aggregate queries of `get_basic_stats` on a live database
(rag.py lines 92–105). -/
def computeStats (rows : List Poi) (location : String) : Stats :=
  { total_banks :=
      (rows.filter (fun r => r.category == "Bank" && r.province == location)).length,
    total_atms :=
      (rows.filter (fun r => r.category == "ATM" && r.province == location)).length,
    total_poi :=
      (rows.filter (fun r =>
        !(r.category == "Bank" || r.category == "ATM") && r.province == location)).length }

/-- `ClaudeService.get_basic_stats` (rag.py lines 82–113): serve the
cached entry when present; otherwise query the database, cache the
result and return it; a database exception yields the zero-valued
defaults without touching the cache. -/
def get_basic_stats (cache : StatsCache) (db : Db) (location : String) :
    Stats × StatsCache :=
  let cacheKey := "basic_stats_" ++ location
  match lookupStr cacheKey cache with
  | some stats => (stats, cache)
  | none =>
    match db with
    | none => ({ total_banks := 0, total_atms := 0, total_poi := 0 }, cache)
    | some rows =>
      let stats := computeStats rows location
      (stats, (cacheKey, stats) :: cache)

/-- `GROUP BY district`: the distinct districts in first-appearance
order. -/
def dedupKeepFirst (l : List String) : List String :=
  l.foldl (fun acc d => if acc.contains d then acc else acc ++ [d]) []

/-- The rows of the inner `d` subquery's `WHERE` clause in
`get_district_analysis` (rag.py line 139): financial categories in the
given province. -/
def financialRows (rows : List Poi) (location : String) : List Poi :=
  rows.filter (fun r =>
    (r.category == "Bank" || r.category == "ATM") && r.province == location)

/-- The rows of the `p` subquery's `WHERE` clause (rag.py line 146):
non-financial categories in the given province. -/
def nonFinancialRows (rows : List Poi) (location : String) : List Poi :=
  rows.filter (fun r =>
    !(r.category == "Bank" || r.category == "ATM") && r.province == location)

/-- `AVG(intensity)` over a group; the empty group never arises from
`GROUP BY`, and a district absent from the `p` side of the `LEFT JOIN`
is the `none` case. -/
def avgIntensity (rs : List Poi) : Option ℚ :=
  match rs with
  | [] => none
  | _ => some ((rs.map (·.intensity)).sum / rs.length)

/-- Insertion step of the sort modelling SQL `ORDER BY` (stable,
keeping input order on ties). -/
def insertLe {α : Type} (le : α → α → Bool) (a : α) : List α → List α
  | [] => [a]
  | b :: rest => if le a b then a :: b :: rest else b :: insertLe le a rest

/-- Insertion sort modelling SQL `ORDER BY` (DuckDB leaves tie order
unspecified; this model keeps input order on ties). -/
def sortByLe {α : Type} (le : α → α → Bool) : List α → List α
  | [] => []
  | a :: rest => insertLe le a (sortByLe le rest)

/-- `ORDER BY p.avg_poi_density DESC NULLS LAST` (rag.py line 149) as a
comes-before test on the nullable average. -/
def avgDescNullsLast (x y : Option ℚ) : Bool :=
  match x, y with
  | none, none => true
  | none, some _ => false
  | some _, none => true
  | some a, some b => decide (b ≤ a)

/-- One output row of the `get_district_analysis` query (rag.py lines
120–150): the selected columns, with `avg_poi_density` already passed
through `COALESCE(_, 0)`. -/
structure DistrictRow where
  district : String
  banks : ℕ
  atms : ℕ
  total_financial : ℕ
  avg_poi_density : ℚ
  area_classification : String
deriving DecidableEq, Repr

/-- `ClaudeService.get_district_analysis` (rag.py lines 115–157):
per-district financial counts LEFT JOINed with per-district average
non-financial intensity, classified by the `CASE` expression, ordered by
average intensity descending with NULLs last; a database exception
yields the empty list. -/
def get_district_analysis (db : Db) (location : String) : List DistrictRow :=
  match db with
  | none => []
  | some rows =>
    let fin := financialRows rows location
    let nonfin := nonFinancialRows rows location
    let districts := dedupKeepFirst (fin.map (·.district))
    let mk : String → Option ℚ × DistrictRow := fun d =>
      let fd := fin.filter (fun r => r.district == d)
      let avg := avgIntensity (nonfin.filter (fun r => r.district == d))
      (avg,
        { district := d,
          banks := (fd.filter (fun r => r.category == "Bank")).length,
          atms := (fd.filter (fun r => r.category == "ATM")).length,
          total_financial := fd.length,
          avg_poi_density := avg.getD 0,
          area_classification := sqlClassify avg fd.length })
    (sortByLe (fun x y => avgDescNullsLast x.1 y.1) (districts.map mk)).map (·.2)

/-- One output row of the `get_business_opportunities` query (rag.py
lines 164–176). -/
structure BizRow where
  district : String
  avg_activity_density : ℚ
  total_activity_points : ℕ
  high_activity_spots : ℕ
  business_opportunity_score : ℚ
deriving DecidableEq, Repr

/-- SQL `ROUND(x, 2)`.  (DuckDB rounds exact halves away from zero while
`round` rounds them up; no embedded input exercises an exact half.) -/
def round2 (q : ℚ) : ℚ := (round (q * 100) : ℤ) / 100

/-- `ClaudeService.get_business_opportunities` (rag.py lines 159–183):
non-financial rows of the province grouped by district, kept when the
average intensity exceeds 0.5, ordered by score descending, limited to
10; a database exception yields the empty list. -/
def get_business_opportunities (db : Db) (location : String) : List BizRow :=
  match db with
  | none => []
  | some rows =>
    let nonfin := nonFinancialRows rows location
    let districts := dedupKeepFirst (nonfin.map (·.district))
    let mk : String → BizRow := fun d =>
      let rs := nonfin.filter (fun r => r.district == d)
      let avg := (rs.map (·.intensity)).sum / rs.length
      { district := d,
        avg_activity_density := avg,
        total_activity_points := rs.length,
        high_activity_spots := (rs.filter (fun r => decide (r.intensity > 0.7))).length,
        business_opportunity_score := round2 (avg * rs.length) }
    let having := (districts.map mk).filter (fun b => decide (b.avg_activity_density > 0.5))
    (sortByLe
      (fun x y => decide (y.business_opportunity_score ≤ x.business_opportunity_score))
      having).take 10

/-- One entry of the hardcoded `recommended_business_areas` list
(rag.py lines 200–219). -/
structure RecArea where
  name : String
  coordinates : ℚ × ℚ
  district : String
  business_potential : String
deriving DecidableEq, Repr

/-- The hardcoded Bali recommendation list (rag.py lines 200–219). -/
def recommendedBusinessAreas : List RecArea :=
  [ { name := "Seminyak Business District", coordinates := (-8.6872, 115.1748),
      district := "Badung", business_potential := "HIGH" },
    { name := "Ubud Cultural Center", coordinates := (-8.5088, 115.2623),
      district := "Gianyar", business_potential := "HIGH" },
    { name := "Canggu Beach Area", coordinates := (-8.6482, 115.1374),
      district := "Badung", business_potential := "HIGH" } ]

/-- The context dict assembled by `get_database_context` /
`generate_response`: the basic-stats keys are always present, the
intent-specific keys only when set (absent keys modelled as `none`). -/
structure DbContext where
  stats : Stats
  district_analysis : Option (List DistrictRow) := none
  business_opportunities : Option (List BizRow) := none
  recommended_business_areas : Option (List RecArea) := none
deriving DecidableEq, Repr

/-- `ClaudeService.get_database_context` (rag.py lines 185–221).
Python's `if not location or location == "None"` treats the empty
string (the only falsy `str`) and the literal `"None"` as missing. -/
def get_database_context (cache : StatsCache) (db : Db) (intent location : String) :
    DbContext × StatsCache :=
  let location := if location = "" ∨ location = "None" then "Bali" else location
  let sc := get_basic_stats cache db location
  if intent = "whitespots" ∨ intent = "risk_assessment" then
    ({ stats := sc.1, district_analysis := some (get_district_analysis db location) },
     sc.2)
  else if intent = "business_analysis" then
    ({ stats := sc.1,
       business_opportunities := some (get_business_opportunities db location),
       recommended_business_areas :=
         if location = "Bali" then some recommendedBusinessAreas else none },
     sc.2)
  else ({ stats := sc.1 }, sc.2)

/-- One `conversation_history` entry (rag.py lines 342–346).  The
`timestamp` field (wall-clock time) is outside the embedding. -/
structure ConvEntry where
  query : String
  response : String
deriving DecidableEq, Repr

/-- The mutable state of a `ClaudeService` instance:
`conversation_history` and `_db_cache`. -/
structure ServiceState where
  conversation_history : List ConvEntry
  db_cache : StatsCache
deriving DecidableEq, Repr

/-- The context-assembly step of `generate_response` (rag.py lines
318–327): deep-analysis intents get the full `get_database_context`,
all others only the basic stats. -/
def responseContext (cache : StatsCache) (db : Db) (intent location : String) :
    DbContext × StatsCache :=
  if intent = "whitespots" ∨ intent = "risk_assessment" ∨ intent = "business_analysis"
      ∨ intent = "bank_distribution" then
    get_database_context cache db intent location
  else
    let sc := get_basic_stats cache db location
    ({ stats := sc.1 }, sc.2)

/-- The fallback f-string of `generate_response` (rag.py lines
354–363), character for character (including the indentation and the
trailing blanks of the ATM line).  The `db_context.get(_, 0)` defaults
are dead: both context shapes carry the three stats keys. -/
def fallbackText (location : String) (ctx : DbContext) (err : String) : String :=
  "\n            **⚠️ Analisis Terbatas - API Error**\n            \n            Data "
    ++ location
    ++ ":\n            - Bank: " ++ toString ctx.stats.total_banks
    ++ " lokasi\n            - ATM: " ++ toString ctx.stats.total_atms
    ++ " lokasi  \n            - POI: " ++ toString ctx.stats.total_poi
    ++ " titik aktivitas\n            \n            Error: " ++ err
    ++ "\n            "

/-- `ClaudeService.generate_response` (rag.py lines 309–364).  The
system prompt and `max_tokens` feed only the external LLM call, which is
modelled by its outcome `llm` (`.ok text` = a successful completion,
`.error e` = a raised exception with message `e`). -/
def generate_response (st : ServiceState) (db : Db) (llm : Except String String)
    (query : String) : (String × MapDirective) × ServiceState :=
  let ir := extract_intent_and_entities query
  let intent := ir.1
  let location := ir.2.2
  let map_directive := generate_map_directive intent location
  let cc := responseContext st.db_cache db intent location
  match llm with
  | .ok text =>
    ((text, map_directive),
     { conversation_history :=
         st.conversation_history ++ [{ query := query, response := text }],
       db_cache := cc.2 })
  | .error e =>
    ((fallbackText location cc.1 e, map_directive),
     { conversation_history := st.conversation_history, db_cache := cc.2 })

/-- `ClaudeService.get_conversation_history` (rag.py lines 366–368). -/
def get_conversation_history (st : ServiceState) : List ConvEntry :=
  st.conversation_history

/-- `ClaudeService.clear_conversation_history` (rag.py lines 370–373):
both the history list and the cache dict are replaced by empty ones. -/
def clear_conversation_history (_st : ServiceState) : ServiceState :=
  { conversation_history := [], db_cache := [] }

/-- One institution dict built by the `/api/financial` response loop
(api.py lines 232–246); `type` carries the row's category. -/
structure Institution where
  id : ℕ
  name : String
  type : String
  lat : ℚ
  lng : ℚ
  province : String
  district : String
  rating : ℚ
  rating_count : ℕ
  gmaps_link : String
  bank_category : String
  bank_colorcode : String
deriving DecidableEq, Repr

/-- The per-row dict of the `/api/financial` response loop (api.py
lines 232–246). -/
def toInstitution (r : Poi) : Institution :=
  { id := r.id, name := r.name, type := r.category, lat := r.latitude,
    lng := r.longitude, province := r.province, district := r.district,
    rating := r.rating, rating_count := r.rating_count,
    gmaps_link := r.gmaps_link, bank_category := r.bank_category,
    bank_colorcode := r.bank_colorcode }

/-- The success body of `/api/financial` (api.py lines 222–253). -/
structure FinancialData where
  success : Bool
  count : ℕ
  banks : List Institution
  atms : List Institution
deriving DecidableEq, Repr

/-- `ORDER BY category, name` (api.py line 216) as a comes-before
test. -/
def catNameLe (a b : Poi) : Bool :=
  match compare a.category b.category with
  | .lt => true
  | .gt => false
  | .eq =>
    match compare a.name b.name with
    | .gt => false
    | _ => true

/-- The `get_financial_data` handler of `GET /api/financial` (api.py
lines 188–259).  `none` parameters model absent query parameters (and
Python's falsy check makes the empty string equivalent to absence);
`province` defaults to `"Bali"`.  The result is `none` when the
database raises (the handler's `except` path answers HTTP 500), and
otherwise the `{success, count, data: {banks, atms}}` body: rows with
category `'Bank'` go to `banks`, every other row to `atms`. -/
def get_financial_data (db : Db) (typeFilter provinceFilter districtFilter : Option String) :
    Option FinancialData :=
  match db with
  | none => none
  | some rows =>
    let province := provinceFilter.getD "Bali"
    let base := rows.filter (fun r =>
      (r.category == "Bank" || r.category == "ATM") && r.province == province)
    let base1 := match districtFilter with
      | some d => if d = "" then base else base.filter (fun r => r.district == d)
      | none => base
    let filtered := match typeFilter with
      | some t =>
        if t ≠ "" ∧ (pyUpper t = "BANK" ∨ pyUpper t = "ATM") then
          base1.filter (fun r => r.category == pyTitle t)
        else base1
      | none => base1
    let ordered := sortByLe catNameLe filtered
    some { success := true, count := ordered.length,
           banks := (ordered.filter (fun r => r.category == "Bank")).map toInstitution,
           atms := (ordered.filter (fun r => !(r.category == "Bank"))).map toInstitution }

/-- A sample `poi_density` Bank row in Bali, for concrete evaluations. -/
def bankRowBali : Poi :=
  { id := 1, name := "BNI Denpasar", category := "Bank", province := "Bali",
    district := "Denpasar", intensity := 0, latitude := -8, longitude := 115,
    rating := 4, rating_count := 10, gmaps_link := "g1", bank_category := "BUMN",
    bank_colorcode := "orange" }

/-- A sample `poi_density` ATM row in Bali, for concrete evaluations. -/
def atmRowBali : Poi :=
  { id := 2, name := "ATM BCA Kuta", category := "ATM", province := "Bali",
    district := "Badung", intensity := 0, latitude := -8, longitude := 115,
    rating := 3, rating_count := 5, gmaps_link := "g2", bank_category := "SWASTA",
    bank_colorcode := "blue" }

/-- C4: on LLM success `generate_response` returns the generated text and
appends exactly one history entry; on an LLM exception it appends
nothing and returns the fallback string built from the already-computed
context stats and the raw error text; the returned `MapDirective` is the
one computed from the extracted intent and location, identical in the
success and failure cases. -/
theorem generate_response_llm_outcomes (st : ServiceState) (db : Db) (q t e : String) :
    (generate_response st db (Except.ok t) q).1.1 = t ∧
    (generate_response st db (Except.ok t) q).2.conversation_history
        = st.conversation_history ++ [{ query := q, response := t }] ∧
    (generate_response st db (Except.error e) q).2.conversation_history
        = st.conversation_history ∧
    (generate_response st db (Except.error e) q).1.1
        = fallbackText (extract_intent_and_entities q).2.2
            (responseContext st.db_cache db (extract_intent_and_entities q).1
              (extract_intent_and_entities q).2.2).1 e ∧
    (generate_response st db (Except.error e) q).1.2
        = generate_map_directive (extract_intent_and_entities q).1
            (extract_intent_and_entities q).2.2 ∧
    (generate_response st db (Except.ok t) q).1.2
        = (generate_response st db (Except.error e) q).1.2 :=
  ⟨rfl, rfl, rfl, rfl, rfl, rfl⟩

/-- C7: clearing the conversation history empties both the history list
and the stats cache, so `get_conversation_history` then returns `[]` and
the next `get_basic_stats` call misses the cache and recomputes its
counts from the database (caching the fresh result). -/
theorem clear_history_resets (st : ServiceState) (rows : List Poi) (location : String) :
    get_conversation_history (clear_conversation_history st) = [] ∧
    (clear_conversation_history st).db_cache = [] ∧
    get_basic_stats (clear_conversation_history st).db_cache (some rows) location
        = (computeStats rows location,
           [("basic_stats_" ++ location, computeStats rows location)]) :=
  ⟨rfl, rfl, rfl⟩

/-- C8: `generate_map_directive ("business_analysis", "Bali")` returns
zoom 11 and the Bali center constant (−8.6705, 115.2126); the directive
is a function of intent and location only, so extracted entities cannot
affect it. -/
theorem business_analysis_directive :
    (generate_map_directive "business_analysis" "Bali").zoom = some 11 ∧
    (generate_map_directive "business_analysis" "Bali").center = some baliCenter ∧
    baliCenter = (-8.6705, 115.2126) :=
  ⟨rfl, rfl, rfl⟩

/-- C9: the `type` parameter of `/api/financial` is only half
case-insensitive.  Any capitalization of `bank` selects category
`'Bank'` (Python `str.title()` gives `"Bank"`), but every capitalization
of `atm` is title-cased to `"Atm"`, which matches no row of category
`'ATM'`: with a Bank and an ATM row present, `type=atm` returns zero
records and two empty lists instead of the ATM record. -/
theorem financial_type_filter_bug :
    get_financial_data (some [bankRowBali, atmRowBali]) (some "atm") none none
        = some { success := true, count := 0, banks := [], atms := [] } ∧
    get_financial_data (some [bankRowBali, atmRowBali]) (some "ATM") none none
        = some { success := true, count := 0, banks := [], atms := [] } ∧
    pyTitle "atm" = "Atm" ∧
    get_financial_data (some [bankRowBali, atmRowBali]) (some "bAnK") none none
        = some { success := true, count := 1,
                 banks := [toInstitution bankRowBali], atms := [] } ∧
    get_financial_data (some [bankRowBali, atmRowBali]) (some "bank") none none
        = some { success := true, count := 1,
                 banks := [toInstitution bankRowBali], atms := [] } :=
  ⟨rfl, rfl, rfl, rfl, rfl⟩

/-- C10: when the database raises during `get_basic_stats`, the
zero-valued default result is returned without being inserted into the
stats cache: the cache is unchanged and still has no entry for the
location, so a later call for the same location re-runs the queries. -/
theorem stats_error_not_cached (cache : StatsCache) (location : String)
    (hmiss : lookupStr ("basic_stats_" ++ location) cache = none) :
    (get_basic_stats cache none location).1
        = { total_banks := 0, total_atms := 0, total_poi := 0 } ∧
    (get_basic_stats cache none location).2 = cache ∧
    lookupStr ("basic_stats_" ++ location) (get_basic_stats cache none location).2
        = none := by
  simp [get_basic_stats, hmiss]

/-- Witness for C10 at the empty cache and location `"Bali"`. -/
theorem stats_error_not_cached_witness :
    (get_basic_stats [] none "Bali").1
        = { total_banks := 0, total_atms := 0, total_poi := 0 } ∧
    lookupStr ("basic_stats_" ++ "Bali") (get_basic_stats [] none "Bali").2 = none :=
  ⟨(stats_error_not_cached [] "Bali" rfl).1, (stats_error_not_cached [] "Bali" rfl).2.2⟩

/-- C1 counterexample: the claim sends (0.2, 5) to
HIGH_RISK_LOW_DEMAND, but the third `WHEN` branch (avg < 0.3 and
total > 2) matches first, giving POTENTIAL_RISK_OVERSUPPLY. -/
theorem district_classification_cex :
    classifyDistrict 0.2 5 = "POTENTIAL_RISK_OVERSUPPLY" ∧
    classifyDistrict 0.2 5 ≠ "HIGH_RISK_LOW_DEMAND" := by
  constructor
  · norm_num [classifyDistrict]
  · norm_num [classifyDistrict]
    decide

/-- C1 (amended): district classification is a pure function of
(avg_intensity, total_financial) given by the threshold rules tried in
order — avg > 0.7 ∧ total < 2 → HIGH_PRIORITY_WHITESPACE; else
avg > 0.5 ∧ total < 3 → MEDIUM_PRIORITY_WHITESPACE; else
avg < 0.3 ∧ total > 2 → POTENTIAL_RISK_OVERSUPPLY; else
avg < 0.2 ∧ total > 0 → HIGH_RISK_LOW_DEMAND; else BALANCED.  In
particular (0.8, 1) ↦ HIGH_PRIORITY_WHITESPACE, (0.2, 5) ↦
POTENTIAL_RISK_OVERSUPPLY (not HIGH_RISK_LOW_DEMAND as claimed),
(0.1, 1) ↦ HIGH_RISK_LOW_DEMAND, (0.4, 1) ↦ BALANCED, and every
threshold (0.7, 0.5, 0.3, 0.2) is strict: a district exactly at a
threshold falls through to a later rule. -/
theorem district_classification_amended :
    (∀ (a : ℚ) (tf : ℕ),
      (a > 0.7 ∧ tf < 2 → classifyDistrict a tf = "HIGH_PRIORITY_WHITESPACE") ∧
      (¬(a > 0.7 ∧ tf < 2) → a > 0.5 ∧ tf < 3 →
        classifyDistrict a tf = "MEDIUM_PRIORITY_WHITESPACE") ∧
      (¬(a > 0.7 ∧ tf < 2) → ¬(a > 0.5 ∧ tf < 3) → a < 0.3 ∧ tf > 2 →
        classifyDistrict a tf = "POTENTIAL_RISK_OVERSUPPLY") ∧
      (¬(a > 0.7 ∧ tf < 2) → ¬(a > 0.5 ∧ tf < 3) → ¬(a < 0.3 ∧ tf > 2) →
        a < 0.2 ∧ tf > 0 → classifyDistrict a tf = "HIGH_RISK_LOW_DEMAND") ∧
      (¬(a > 0.7 ∧ tf < 2) → ¬(a > 0.5 ∧ tf < 3) → ¬(a < 0.3 ∧ tf > 2) →
        ¬(a < 0.2 ∧ tf > 0) → classifyDistrict a tf = "BALANCED")) ∧
    classifyDistrict 0.8 1 = "HIGH_PRIORITY_WHITESPACE" ∧
    classifyDistrict 0.2 5 = "POTENTIAL_RISK_OVERSUPPLY" ∧
    classifyDistrict 0.1 1 = "HIGH_RISK_LOW_DEMAND" ∧
    classifyDistrict 0.4 1 = "BALANCED" ∧
    classifyDistrict 0.7 1 = "MEDIUM_PRIORITY_WHITESPACE" ∧
    classifyDistrict 0.5 1 = "BALANCED" ∧
    classifyDistrict 0.3 5 = "BALANCED" ∧
    classifyDistrict 0.2 1 = "BALANCED" := by
  refine ⟨fun a tf => ⟨?_, ?_, ?_, ?_, ?_⟩, ?_, ?_, ?_, ?_, ?_, ?_, ?_, ?_⟩
  · intro h1
    unfold classifyDistrict
    rw [if_pos h1]
  · intro h1 h2
    unfold classifyDistrict
    rw [if_neg h1, if_pos h2]
  · intro h1 h2 h3
    unfold classifyDistrict
    rw [if_neg h1, if_neg h2, if_pos h3]
  · intro h1 h2 h3 h4
    unfold classifyDistrict
    rw [if_neg h1, if_neg h2, if_neg h3, if_pos h4]
  · intro h1 h2 h3 h4
    unfold classifyDistrict
    rw [if_neg h1, if_neg h2, if_neg h3, if_neg h4]
  all_goals norm_num [classifyDistrict]

/-- Witness for C1 at the concrete input (0.8, 1). -/
theorem district_classification_witness :
    classifyDistrict 0.8 1 = "HIGH_PRIORITY_WHITESPACE" :=
  (district_classification_amended.1 0.8 1).1 (by norm_num)

/-- C6: the location returned by `extract_intent_and_entities` is
`"Bali"` whenever the lower-cased query contains `"bali"`; otherwise it
is `"Indonesia"` exactly when the classified intent is
`"gdp_national"`, and `"Bali"` in every other case. -/
theorem location_resolution (q : String) :
    (containsSub (pyLower q) "bali" = true →
      (extract_intent_and_entities q).2.2 = "Bali") ∧
    (containsSub (pyLower q) "bali" = false →
      ((extract_intent_and_entities q).2.2 = "Indonesia"
        ↔ (extract_intent_and_entities q).1 = "gdp_national")) ∧
    (containsSub (pyLower q) "bali" = false →
      (extract_intent_and_entities q).1 ≠ "gdp_national" →
      (extract_intent_and_entities q).2.2 = "Bali") := by
  unfold extract_intent_and_entities
  refine ⟨?_, ?_, ?_⟩
  · intro h
    simp [h]
  · intro h
    simp only [h, Bool.false_eq_true, if_false]
    split
    · rename_i hg
      simp [hg]
    · rename_i hg
      simp [hg]
  · intro h hni
    have hni' : firstIntent (pyLower q) INTENT_KEYWORDS ≠ "gdp_national" := hni
    simp [h, hni']

/-- Witness for C6: a query classified `gdp_national` without the token
`"bali"` resolves to `"Indonesia"`; one with neither the token nor that
intent resolves to the default `"Bali"`. -/
theorem location_resolution_witness :
    (extract_intent_and_entities "gdp indonesia").2.2 = "Indonesia" ∧
    (extract_intent_and_entities "halo kawan").2.2 = "Bali" :=
  ⟨((location_resolution "gdp indonesia").2.1 (by decide)).mpr (by decide),
   (location_resolution "halo kawan").2.2 (by decide) (by decide)⟩

/-- Helper: `firstIntent` skips every entry whose keyword list has no
match and returns the first entry with one. -/
theorem firstIntent_append (ql : List Char) (l1 l2 : List (String × List String))
    (i : String) (kws : List String)
    (h1 : ∀ p ∈ l1, p.2.any (fun w => containsSub ql w) = false)
    (h2 : kws.any (fun w => containsSub ql w) = true) :
    firstIntent ql (l1 ++ (i, kws) :: l2) = i := by
  induction l1 with
  | nil => simp [firstIntent, h2]
  | cons p rest ih =>
    obtain ⟨a, b⟩ := p
    have hp := h1 ⟨a, b⟩ (by simp)
    simp only [List.cons_append, firstIntent, hp, Bool.false_eq_true, if_false]
    exact ih (fun q hq => h1 q (List.mem_cons_of_mem _ hq))

/-- Helper: with no matching keyword anywhere, `firstIntent` falls
through to the default. -/
theorem firstIntent_no_match (ql : List Char) (l : List (String × List String))
    (h : ∀ p ∈ l, p.2.any (fun w => containsSub ql w) = false) :
    firstIntent ql l = "general_info" := by
  induction l with
  | nil => rfl
  | cons p rest ih =>
    obtain ⟨a, b⟩ := p
    have hp := h ⟨a, b⟩ (by simp)
    simp only [firstIntent, hp, Bool.false_eq_true, if_false]
    exact ih (fun q hq => h q (List.mem_cons_of_mem _ hq))

/-- C3: if the lower-cased query contains a keyword of some intent of
`INTENT_KEYWORDS` and no keyword of any earlier-listed intent, the
extracted intent is that intent; containing no keyword of any list, the
extracted intent is the default `"general_info"`. -/
theorem intent_extraction_first_match (q : String) (l1 l2 : List (String × List String))
    (i : String) (kws : List String) :
    (INTENT_KEYWORDS = l1 ++ (i, kws) :: l2 →
      (∀ p ∈ l1, p.2.any (fun w => containsSub (pyLower q) w) = false) →
      kws.any (fun w => containsSub (pyLower q) w) = true →
      (extract_intent_and_entities q).1 = i) ∧
    ((∀ p ∈ INTENT_KEYWORDS, p.2.any (fun w => containsSub (pyLower q) w) = false) →
      (extract_intent_and_entities q).1 = "general_info") := by
  constructor
  · intro hsplit h1 h2
    show firstIntent (pyLower q) INTENT_KEYWORDS = i
    rw [hsplit]
    exact firstIntent_append (pyLower q) l1 l2 i kws h1 h2
  · intro h
    show firstIntent (pyLower q) INTENT_KEYWORDS = "general_info"
    exact firstIntent_no_match (pyLower q) INTENT_KEYWORDS h

/-- Witness for C3: a query matching a `whitespots` keyword and no
`greeting` keyword classifies as `whitespots`; a query matching nothing
classifies as `general_info`. -/
theorem intent_extraction_witness :
    (extract_intent_and_entities "Lokasi belum terjangkau bank di Bali?").1
        = "whitespots" ∧
    (extract_intent_and_entities "cuaca cerah").1 = "general_info" := by
  constructor
  · exact (intent_extraction_first_match "Lokasi belum terjangkau bank di Bali?"
      [("greeting", ["halo", "hai", "hello", "apa kabar", "selamat"])]
      [ ("risk_assessment", ["cabang berisiko", "pengawasan", "berisiko"]),
        ("gdp_national", ["kondisi nasional", "ekonomi nasional", "gdp", "nasional"]),
        ("business_analysis", ["coffee shop", "kedai kopi", "lokasi strategis", "usaha"]),
        ("bank_distribution", ["sebaran bank", "lokasi bank", "cabang bank"]) ]
      "whitespots"
      ["belum terjangkau", "white-spot", "white spot", "lokasi terbaik", "ekspansi"]).1
      rfl (by decide) (by decide)
  · exact (intent_extraction_first_match "cuaca cerah" [] [] "" []).2 (by decide)

/-- C2 counterexample: for intent `"gdp_national"` and location
`"Bali"` the directive's center is the Indonesia constant, not the
location-resolved Bali center, so the center does depend on the
intent. -/
theorem map_center_cex :
    (generate_map_directive "gdp_national" "Bali").center = some indonesiaCenter ∧
    (generate_map_directive "whitespots" "Bali").center = some baliCenter ∧
    (generate_map_directive "gdp_national" "Bali").center
      ≠ (generate_map_directive "whitespots" "Bali").center := by
  refine ⟨rfl, rfl, ?_⟩
  intro h
  have h2 : indonesiaCenter = baliCenter := Option.some.inj h
  have h3 : (-2.5 : ℚ) = -8.6705 := congrArg Prod.fst h2
  norm_num at h3

/-- C2 (amended): for the four intents with a location-sensitive entry
(whitespots, risk_assessment, bank_distribution, business_analysis) the
directive's center is the location looked up in the two-entry
`MAP_CENTERS` table with the Bali center as default; for
`"gdp_national"` and every unknown intent (which falls back to the
`gdp_national` entry) the center is always the Indonesia constant,
whatever the location. -/
theorem map_center_amended (intent loc : String) :
    (intent = "whitespots" ∨ intent = "risk_assessment" ∨ intent = "bank_distribution"
        ∨ intent = "business_analysis" →
      (generate_map_directive intent loc).center
        = some ((lookupStr loc MAP_CENTERS).getD baliCenter)) ∧
    (intent ≠ "whitespots" → intent ≠ "risk_assessment" → intent ≠ "bank_distribution" →
      intent ≠ "business_analysis" →
      (generate_map_directive intent loc).center = some indonesiaCenter) := by
  constructor
  · rintro (h | h | h | h) <;> subst h <;> rfl
  · intro h1 h2 h3 h4
    by_cases hg : intent = "gdp_national"
    · subst hg; rfl
    · have e1 : ("gdp_national" == intent) = false := by simp [Ne.symm hg]
      have e2 : ("whitespots" == intent) = false := by simp [Ne.symm h1]
      have e3 : ("risk_assessment" == intent) = false := by simp [Ne.symm h2]
      have e4 : ("bank_distribution" == intent) = false := by simp [Ne.symm h3]
      have e5 : ("business_analysis" == intent) = false := by simp [Ne.symm h4]
      simp [generate_map_directive, lookupStr, List.find?, e1, e2, e3, e4, e5]

/-- Witness for C2: a location outside the table resolves to the Bali
default for a location-sensitive intent, and an unknown intent gets the
Indonesia center even at location `"Bali"`. -/
theorem map_center_witness :
    (generate_map_directive "risk_assessment" "Java").center = some baliCenter ∧
    (generate_map_directive "somethingelse" "Bali").center = some indonesiaCenter := by
  constructor
  · have h := (map_center_amended "risk_assessment" "Java").1 (Or.inr (Or.inl rfl))
    rw [h]
    rfl
  · exact (map_center_amended "somethingelse" "Bali").2
      (by decide) (by decide) (by decide) (by decide)

/-- C5: when the database raises, `get_basic_stats` returns the
zero-valued stats, `get_district_analysis` and
`get_business_opportunities` return the empty list, and
`get_database_context` still assembles a context from these defaults
for every intent — zero stats and empty (or absent) intent-specific
lists — leaving the cache untouched; no exception escapes. -/
theorem db_error_degrades_to_defaults (cache : StatsCache) (intent location : String)
    (hmiss : lookupStr ("basic_stats_" ++ location) cache = none)
    (hloc1 : location ≠ "") (hloc2 : location ≠ "None") :
    get_basic_stats cache none location
        = ({ total_banks := 0, total_atms := 0, total_poi := 0 }, cache) ∧
    get_district_analysis none location = [] ∧
    get_business_opportunities none location = [] ∧
    (get_database_context cache none intent location).1.stats
        = { total_banks := 0, total_atms := 0, total_poi := 0 } ∧
    ((get_database_context cache none intent location).1.district_analysis = none ∨
     (get_database_context cache none intent location).1.district_analysis = some []) ∧
    ((get_database_context cache none intent location).1.business_opportunities = none ∨
     (get_database_context cache none intent location).1.business_opportunities = some []) ∧
    (get_database_context cache none intent location).2 = cache := by
  have hbs : get_basic_stats cache none location
      = ({ total_banks := 0, total_atms := 0, total_poi := 0 }, cache) := by
    simp [get_basic_stats, hmiss]
  refine ⟨hbs, rfl, rfl, ?_, ?_, ?_, ?_⟩ <;>
    simp only [get_database_context, hloc1, hloc2, or_self, if_false, hbs,
      get_district_analysis, get_business_opportunities] <;>
    split_ifs <;> simp

/-- Witness for C5 at the empty cache, intent `"whitespots"`, location
`"Bali"`. -/
theorem db_error_witness :
    get_basic_stats [] none "Bali"
        = ({ total_banks := 0, total_atms := 0, total_poi := 0 }, ([] : StatsCache)) ∧
    get_district_analysis none "Bali" = [] ∧
    get_business_opportunities none "Bali" = [] ∧
    (get_database_context [] none "whitespots" "Bali").1.stats
        = { total_banks := 0, total_atms := 0, total_poi := 0 } :=
  have h := db_error_degrades_to_defaults [] "whitespots" "Bali" rfl
    (by decide) (by decide)
  ⟨h.1, h.2.1, h.2.2.1, h.2.2.2.1⟩

end LocalPulse
